import Mathlib

set_option maxRecDepth 10000

/-!
Verification development for the task synchronization and
assistant-recommendation subsystem of the taskapp repository.

The embedding translates `src/src/contexts/TaskContext.tsx` (Task Store,
Time Tracking), `src/src/services/aiService.ts` (AI Gateway) and the
TaskAssistantContext recommendation pass into pure Lean functions.

Modelling conventions:
- A JavaScript `Date` object is a pair of an object identity (`ref`) and an
  epoch-milliseconds instant (`time`): `a !== b` on two `Date` values compares
  identities, `a < b` and arithmetic compare instants.
- Side-effecting adapter calls (calendar, reminders) are modelled by the value
  the adapter returns (passed in as a parameter, since the adapters are
  external collaborators) together with an emitted trace of `AdapterOp`
  records, one per call the Task Store makes.
- `async`/`await` sequencing in single-threaded code is modelled by ordinary
  sequential evaluation.
- Strings are Lean `String`s; `toLowerCase`, `includes`, `trim` and the
  `JSON.parse` subset actually exercised by the program are implemented
  directly on character lists.
-/

namespace TaskApp

/-- A JavaScript `Date`: `ref` models the object identity (two distinct
`new Date(...)` objects have distinct `ref`s even at the same instant),
`time` the epoch-millisecond instant (`getTime()` / `valueOf()`). -/
structure JsDate where
  ref : Nat
  time : Int
deriving DecidableEq, Repr

/-- `a !== b` on two optional `Date` values: `undefined !== undefined` is
false; two `Date`s are `!==` exactly when they are distinct objects. -/
def optDateStrictNe : Option JsDate → Option JsDate → Bool
  | none, none => false
  | some d1, some d2 => d1.ref != d2.ref
  | _, _ => true

/-- `TaskStatus` from `src/src/types` (part_004). -/
inductive TaskStatus where
  | todo | inProgress | completed
deriving DecidableEq, Repr

/-- `Priority` from `src/src/types`. -/
inductive Priority where
  | low | medium | high
deriving DecidableEq, Repr

/-- `RecurrenceType` from `src/src/types`. -/
inductive RecurrenceType where
  | none | daily | weekly | monthly
deriving DecidableEq, Repr

/-- `TimeTrackingSession`: the object literals that `startTaskTimer` /
`stopTaskTimer` actually build carry `startTime`, optional `endTime` and
optional `duration` (the code writes a `duration` field). -/
structure Session where
  startTime : JsDate
  endTime : Option JsDate
  duration : Option Int
deriving DecidableEq, Repr

/-- `TimeTracking` from `src/src/types`: cumulative minutes and the ordered
session list. -/
structure TimeTracking where
  totalTimeSpent : Int
  sessions : List Session
deriving DecidableEq, Repr

/-- `TaskRecurrence` from `src/src/types`. -/
structure TaskRecurrence where
  rtype : RecurrenceType
  interval : Int
  endDate : Option JsDate
  count : Option Int
deriving DecidableEq, Repr

/-- The `Task` entity as the Task Store manipulates it
(`src/src/types`, part_004). `assignedTo`, `comments` and `subtasks` carry no
behavior in the Task Store operations and are omitted here; the persisted
shape including comments is modelled separately for the round-trip claims. -/
structure Task where
  id : String
  title : String
  description : Option String
  status : TaskStatus
  priority : Priority
  deadline : Option JsDate
  startTime : Option JsDate
  duration : Option Int
  tags : Option (List String)
  createdAt : JsDate
  updatedAt : JsDate
  createdBy : String
  timeTracking : Option TimeTracking
  recurrence : Option TaskRecurrence
  calendarEventId : Option String
  notificationIds : Option (List String)
  completedAt : Option JsDate
deriving DecidableEq, Repr

/-- One adapter call made by the Task Store, in call order: the calendar and
reminder side effects of a mutation (`notificationService` /
`calendarService` invocations in TaskContext.tsx). -/
inductive AdapterOp where
  | cancelReminders (ids : List String)
  | scheduleReminders (taskId : String)
  | calendarUpdate (eventId : String) (taskId : String)
  | calendarCreate (taskId : String)
  | calendarDelete (eventId : String)
deriving DecidableEq, Repr

/-- What the external adapters return to one mutation: the reminder-id list
produced by `notificationService.scheduleTaskReminder` and the event id
produced by `calendarService.addTaskToCalendar` (`none` models a null
return). -/
structure AdapterResults where
  scheduleResult : List String
  createResult : Option String
deriving DecidableEq, Repr

/-- `getTaskById` (TaskContext.tsx:263-265): first task with the given id. -/
def getTaskById (tasks : List Task) (id : String) : Option Task :=
  tasks.find? (fun t => t.id == id)

/-- The `UPDATE_TASK` branch of `taskReducer` (TaskContext.tsx:33-36):
replace every task whose id matches the payload's id. -/
def replaceById (tasks : List Task) (payload : Task) : List Task :=
  tasks.map (fun t => if t.id == payload.id then payload else t)

/-- The deadline-changed block of `updateTask` (TaskContext.tsx:147-177):
cancel old reminders when some existed, schedule new ones when a deadline is
present (storing the returned ids only when nonempty), then update / create /
delete the calendar event.  Returns the entity as mutated plus the adapter
calls made, in order. -/
def applyDeadlineSideEffects (task oldTask : Task) (res : AdapterResults) :
    Task × List AdapterOp :=
  let ops1 := match oldTask.notificationIds with
    | some ids => if ids.length > 0 then [AdapterOp.cancelReminders ids] else []
    | none => []
  let (task1, ops2) := match task.deadline with
    | some _ =>
      (if res.scheduleResult.length > 0 then
        { task with notificationIds := some res.scheduleResult }
       else task,
       [AdapterOp.scheduleReminders task.id])
    | none => (task, [])
  let (task2, ops3) := match task1.deadline, oldTask.calendarEventId with
    | some _, some eid =>
      ({ task1 with calendarEventId := some eid },
       [AdapterOp.calendarUpdate eid task1.id])
    | some _, none =>
      ((match res.createResult with
        | some eid => { task1 with calendarEventId := some eid }
        | none => task1),
       [AdapterOp.calendarCreate task1.id])
    | none, some eid =>
      ({ task1 with calendarEventId := none }, [AdapterOp.calendarDelete eid])
    | none, none => (task1, [])
  (task2, ops1 ++ ops2 ++ ops3)

/-- `updateTask` (TaskContext.tsx:142-184): look up the previous entity by id;
when the new deadline is `!==` the stored one, run the deadline side effects;
dispatch `UPDATE_TASK` with the (possibly mutated) entity. -/
def updateTask (tasks : List Task) (task : Task) (res : AdapterResults) :
    List Task × List AdapterOp :=
  match getTaskById tasks task.id with
  | some oldTask =>
    if optDateStrictNe task.deadline oldTask.deadline then
      let (task2, ops) := applyDeadlineSideEffects task oldTask res
      (replaceById tasks task2, ops)
    else
      (replaceById tasks task, [])
  | none => (replaceById tasks task, [])

/-- `addTask` (TaskContext.tsx:114-140): when a deadline is present, create a
calendar event (storing the id when one is returned) and schedule reminders
(storing the ids when nonempty); dispatch `ADD_TASK`, which appends.  The
recurrence block in the source is an empty placeholder. -/
def addTask (tasks : List Task) (task : Task) (res : AdapterResults) :
    List Task × List AdapterOp :=
  match task.deadline with
  | some _ =>
    let task1 := match res.createResult with
      | some eid => { task with calendarEventId := some eid }
      | none => task
    let task2 :=
      if res.scheduleResult.length > 0 then
        { task1 with notificationIds := some res.scheduleResult }
      else task1
    (tasks ++ [task2],
     [AdapterOp.calendarCreate task.id, AdapterOp.scheduleReminders task.id])
  | none => (tasks ++ [task], [])

/-- `deleteTask` (TaskContext.tsx:186-206): cancel reminders when references
exist, delete the calendar event when one is referenced, dispatch
`DELETE_TASK` (filter by id). -/
def deleteTask (tasks : List Task) (id : String) : List Task × List AdapterOp :=
  let ops := match getTaskById tasks id with
    | some t =>
      (match t.notificationIds with
       | some ids => if ids.length > 0 then [AdapterOp.cancelReminders ids] else []
       | none => []) ++
      (match t.calendarEventId with
       | some eid => [AdapterOp.calendarDelete eid]
       | none => [])
    | none => []
  (tasks.filter (fun t => t.id != id), ops)

/-- Outcome of the durable write `FileSystem.writeAsStringAsync`. -/
inductive WriteOutcome where
  | success
  | failure (msg : String)
deriving DecidableEq, Repr

/-- `saveTasks` (TaskContext.tsx:98-107): the write is wrapped in
`try { ... } catch (error) { console.error(...) }` — a failing write is
logged and swallowed, never rethrown. -/
def saveTasks (w : WriteOutcome) : Except String Unit :=
  match w with
  | .success => Except.ok ()
  | .failure _ => Except.ok ()

/-- The persistence effect (TaskContext.tsx:97-112): runs `saveTasks` only
when the collection is nonempty. -/
def persistAfterChange (tasks : List Task) (w : WriteOutcome) : Except String Unit :=
  if tasks.length > 0 then saveTasks w else Except.ok ()

/-- An adapter call as the service wrappers see it: the underlying platform
call either throws or returns a value. -/
inductive CallOutcome (α : Type) where
  | throws (msg : String)
  | returns (a : α)

/-- `notificationService.scheduleTaskReminder` (part of the source bundle):
every path is inside `try { ... } catch { return [] }`, so a throwing platform
call yields the empty reference list, never an exception. -/
def scheduleTaskReminder (outcome : CallOutcome (List String)) : List String :=
  match outcome with
  | .throws _ => []
  | .returns ids => ids

/-- `calendarService.addTaskToCalendar` (part_008): every path is inside
`try { ... } catch { return null }`, so a throwing platform call yields no
event reference, never an exception. -/
def addTaskToCalendar (outcome : CallOutcome (Option String)) : Option String :=
  match outcome with
  | .throws _ => none
  | .returns r => r

/-- `Math.round(num / den)` for `den > 0` as JavaScript computes it
(round half toward positive infinity): `⌊num/den + 1/2⌋`. -/
def jsRound (num den : Int) : Int :=
  Int.fdiv (2 * num + den) (2 * den)

/-- `startTaskTimer` (TaskContext.tsx:208-231): no-op when the task is
missing; otherwise append a session `{ startTime: now }` to the (possibly
fresh) record and route through `updateTask`. -/
def startTaskTimer (tasks : List Task) (taskId : String) (now : JsDate)
    (res : AdapterResults) : List Task × List AdapterOp :=
  match getTaskById tasks taskId with
  | none => (tasks, [])
  | some task =>
    let tt := task.timeTracking.getD { totalTimeSpent := 0, sessions := [] }
    let updatedTask := { task with
      timeTracking := some { tt with
        sessions := tt.sessions ++ [{ startTime := now, endTime := none, duration := none }] } }
    updateTask tasks updatedTask res

/-- `stopTaskTimer` (TaskContext.tsx:233-261): no-op when the task or its
record is missing or the last session is absent or closed; otherwise close
the last session at `now` with the rounded elapsed minutes and add them to
the total, then route through `updateTask`. -/
def stopTaskTimer (tasks : List Task) (taskId : String) (now : JsDate)
    (res : AdapterResults) : List Task × List AdapterOp :=
  match getTaskById tasks taskId with
  | none => (tasks, [])
  | some task =>
    match task.timeTracking with
    | none => (tasks, [])
    | some tt =>
      match tt.sessions.getLast? with
      | none => (tasks, [])
      | some lastSession =>
        if lastSession.endTime.isSome then (tasks, [])
        else
          let dur := jsRound (now.time - lastSession.startTime.time) 60000
          let updatedSessions := tt.sessions.dropLast ++
            [{ lastSession with endTime := some now, duration := some dur }]
          let updatedTask := { task with
            timeTracking := some { totalTimeSpent := tt.totalTimeSpent + dur,
                                   sessions := updatedSessions } }
          updateTask tasks updatedTask res

/-! ## Persistence round-trip (saveTasks / loadTasks)

`saveTasks` writes `JSON.stringify(tasks)`; `loadTasks`
(TaskContext.tsx:56-94) parses it back and revives a fixed set of date
fields with `new Date(...)`.  `JSON.stringify` turns a `Date` into its
ISO-8601 string (millisecond precision) and `new Date` parses that string
back to the same instant, so the wire form of a date determines its instant
exactly; a date-or-string JSON value is therefore modelled by the instant it
denotes, tagged with whether it is still a `Date` or an ISO string. -/

/-- A JSON value in a date-valued position: still a JavaScript `Date`
carrying instant `t`, or the ISO-8601 wire string denoting instant `t`. -/
inductive JVal where
  | date (t : Int)
  | str (t : Int)
deriving DecidableEq, Repr

/-- `new Date(x)`: parses an ISO string back into a `Date` at the same
instant (and clones a `Date`). -/
def jvalToDate : JVal → JVal
  | .date t => .date t
  | .str t => .date t

/-- A time-tracking session as persisted. -/
structure JSession where
  startTime : JVal
  endTime : Option JVal
  duration : Option Int
deriving DecidableEq, Repr

/-- A time-tracking record as persisted. -/
structure JTimeTracking where
  totalTimeSpent : Int
  sessions : List JSession
deriving DecidableEq, Repr

/-- A recurrence descriptor as persisted. -/
structure JRecurrence where
  rtype : RecurrenceType
  interval : Int
  endDate : Option JVal
  count : Option Int
deriving DecidableEq, Repr

/-- A `Comment` (src/src/types) as persisted: immutable text with a
creation timestamp. -/
structure JComment where
  id : String
  text : String
  createdAt : JVal
  userId : String
  userName : String
deriving DecidableEq, Repr

/-- The persisted shape of a task: every field of the `Task` interface that
carries a date somewhere, with date positions as `JVal`.  (`assignedTo`
holds no dates and is omitted.) -/
structure JTask where
  id : String
  title : String
  description : Option String
  status : TaskStatus
  priority : Priority
  deadline : Option JVal
  startTime : Option JVal
  duration : Option Int
  tags : Option (List String)
  createdAt : JVal
  updatedAt : JVal
  createdBy : String
  comments : Option (List JComment)
  timeTracking : Option JTimeTracking
  recurrence : Option JRecurrence
  calendarEventId : Option String
  notificationIds : Option (List String)
  completedAt : Option JVal
deriving DecidableEq, Repr

/-- One date position under `JSON.stringify`: a `Date` becomes its ISO
string. -/
def stringifyJVal : JVal → JVal
  | .date t => .str t
  | .str t => .str t

/-- `JSON.stringify` over a whole task: every date in every nested position
becomes its ISO string (this is what `saveTasks` writes). -/
def stringifyJTask (t : JTask) : JTask :=
  { t with
    deadline := t.deadline.map stringifyJVal
    startTime := t.startTime.map stringifyJVal
    createdAt := stringifyJVal t.createdAt
    updatedAt := stringifyJVal t.updatedAt
    comments := t.comments.map (fun cs => cs.map
      (fun c => { c with createdAt := stringifyJVal c.createdAt }))
    timeTracking := t.timeTracking.map (fun tt =>
      { tt with sessions := tt.sessions.map (fun s =>
          { s with startTime := stringifyJVal s.startTime,
                   endTime := s.endTime.map stringifyJVal }) })
    recurrence := t.recurrence.map (fun r =>
      { r with endDate := r.endDate.map stringifyJVal })
    completedAt := t.completedAt.map stringifyJVal }

/-- The revival mapping of `loadTasks` (TaskContext.tsx:66-84): spread the
parsed task and rebuild `createdAt`, `updatedAt`, `deadline`, `startTime`,
`recurrence.endDate` and each session's `startTime` / `endTime` with
`new Date(...)`.  No other field is touched: in particular `completedAt` and
the comments' `createdAt` keep their parsed (string) form. -/
def formatLoadedTask (t : JTask) : JTask :=
  { t with
    createdAt := jvalToDate t.createdAt
    updatedAt := jvalToDate t.updatedAt
    deadline := t.deadline.map jvalToDate
    startTime := t.startTime.map jvalToDate
    recurrence := t.recurrence.map (fun r =>
      { r with endDate := r.endDate.map jvalToDate })
    timeTracking := t.timeTracking.map (fun tt =>
      { tt with sessions := tt.sessions.map (fun s =>
          { s with startTime := jvalToDate s.startTime,
                   endTime := s.endTime.map jvalToDate }) }) }

/-- Persist one task and load it back: `loadTasks`'s mapping applied to what
`saveTasks` wrote. -/
def roundtripTask (t : JTask) : JTask :=
  formatLoadedTask (stringifyJTask t)

/-- Persist and reload a whole collection (`loadedTasks.map(...)`). -/
def roundtripTasks (ts : List JTask) : List JTask :=
  (ts.map stringifyJTask).map formatLoadedTask

/-! ## String primitives used by the AI Gateway and the engine -/

/-- JavaScript `toLowerCase()` on the ASCII strings the program uses. -/
def jsToLower (s : String) : String :=
  String.mk (s.data.map Char.toLower)

/-- Substring occurrence on character lists (`String.prototype.includes`):
the empty pattern occurs everywhere. -/
def hasSub (s pat : List Char) : Bool :=
  match s with
  | [] => pat.isEmpty
  | _ :: rest => s.take pat.length == pat || hasSub rest pat

/-- JavaScript `s.includes(pat)`. -/
def jsIncludes (s pat : String) : Bool :=
  hasSub s.data pat.data

/-- JavaScript `trim()`: drop whitespace from both ends. -/
def trimChars (cs : List Char) : List Char :=
  ((cs.dropWhile Char.isWhitespace).reverse.dropWhile Char.isWhitespace).reverse

/-- The cleanup regex `/```json|```/g` of `decomposeTask`
(aiService.ts:165): scan left to right, at each position removing a
\x60\x60\x60json match first, else a \x60\x60\x60 match, else keeping the
character. -/
def stripFencesAux (fuel : Nat) (cs : List Char) : List Char :=
  match fuel with
  | 0 => cs
  | fuel + 1 =>
    match cs with
    | [] => []
    | c :: rest =>
      if (c :: rest).take 7 = "```json".data then stripFencesAux fuel (rest.drop 6)
      else if (c :: rest).take 3 = "```".data then stripFencesAux fuel (rest.drop 2)
      else c :: stripFencesAux fuel rest

/-- The scan with enough fuel for the whole text (every step consumes at
least one character). -/
def stripFences (cs : List Char) : List Char :=
  stripFencesAux cs.length cs

/-- `response.replace(/```json|```/g, '').trim()` (aiService.ts:165). -/
def cleanResponse (s : String) : String :=
  String.mk (trimChars (stripFences s.data))

/-! ## A JSON value model and the `JSON.parse` subset the program exercises

The parser covers strings (with the simple escapes), integers, arrays,
objects, `true`/`false`/`null` and whitespace — the grammar fragment that the
gateway's own `JSON.stringify` output and the claims' inputs use; fractional
and exponent number forms are outside the modelled subset. -/

/-- A parsed JSON value. -/
inductive Json where
  | jnull
  | jbool (b : Bool)
  | jnum (n : Int)
  | jstr (s : String)
  | jarr (xs : List Json)
  | jobj (fields : List (String × Json))

/-- Skip JSON whitespace. -/
def skipWs (cs : List Char) : List Char :=
  match cs with
  | c :: rest =>
    if c = ' ' || c = '\n' || c = '\t' || c = '\r' then skipWs rest else cs
  | [] => []

/-- Parse the remainder of a JSON string literal (the opening quote already
consumed), handling the simple backslash escapes. -/
def parseStringBody (fuel : Nat) (cs : List Char) : Option (String × List Char) :=
  match fuel with
  | 0 => none
  | fuel + 1 =>
    match cs with
    | [] => none
    | c :: rest =>
      if c = '"' then some ("", rest)
      else if c = '\\' then
        match rest with
        | [] => none
        | e :: rest2 =>
          let dec : Option Char :=
            if e = '"' then some '"'
            else if e = '\\' then some '\\'
            else if e = '/' then some '/'
            else if e = 'n' then some '\n'
            else if e = 't' then some '\t'
            else if e = 'r' then some '\r'
            else none
          match dec with
          | some d =>
            (parseStringBody fuel rest2).map (fun p => (String.mk (d :: p.1.data), p.2))
          | none => none
      else
        (parseStringBody fuel rest).map (fun p => (String.mk (c :: p.1.data), p.2))

/-- Digits to their numeric value. -/
def digitsToNat (ds : List Char) : Nat :=
  ds.foldl (fun acc c => acc * 10 + (c.toNat - 48)) 0

mutual

/-- Parse one JSON value, returning it with the unconsumed remainder. -/
def parseValue (fuel : Nat) (cs : List Char) : Option (Json × List Char) :=
  match fuel with
  | 0 => none
  | fuel + 1 =>
    let cs := skipWs cs
    match cs with
    | [] => none
    | c :: rest =>
      if c = '"' then
        (parseStringBody fuel rest).map (fun p => (Json.jstr p.1, p.2))
      else if c = '[' then
        let rest2 := skipWs rest
        match rest2 with
        | ']' :: r => some (Json.jarr [], r)
        | _ => (parseElems fuel rest2).map (fun p => (Json.jarr p.1, p.2))
      else if c = '{' then
        let rest2 := skipWs rest
        match rest2 with
        | '}' :: r => some (Json.jobj [], r)
        | _ => (parseFields fuel rest2).map (fun p => (Json.jobj p.1, p.2))
      else if c = 't' then
        if rest.take 3 = "rue".data then some (Json.jbool true, rest.drop 3) else none
      else if c = 'f' then
        if rest.take 4 = "alse".data then some (Json.jbool false, rest.drop 4) else none
      else if c = 'n' then
        if rest.take 3 = "ull".data then some (Json.jnull, rest.drop 3) else none
      else if c = '-' || c.isDigit then
        let body := if c = '-' then rest else cs
        let ds := body.takeWhile Char.isDigit
        let r := body.dropWhile Char.isDigit
        if ds.isEmpty then none
        else
          match r with
          | '.' :: _ => none
          | 'e' :: _ => none
          | 'E' :: _ => none
          | _ =>
            let n : Int := Int.ofNat (digitsToNat ds)
            some (Json.jnum (if c = '-' then -n else n), r)
      else none

/-- Parse a nonempty comma-separated element list up to the closing `]`. -/
def parseElems (fuel : Nat) (cs : List Char) : Option (List Json × List Char) :=
  match fuel with
  | 0 => none
  | fuel + 1 =>
    match parseValue fuel cs with
    | none => none
    | some (v, r) =>
      let r := skipWs r
      match r with
      | ',' :: r2 => (parseElems fuel r2).map (fun p => (v :: p.1, p.2))
      | ']' :: r2 => some ([v], r2)
      | _ => none

/-- Parse a nonempty comma-separated field list up to the closing brace. -/
def parseFields (fuel : Nat) (cs : List Char) :
    Option (List (String × Json) × List Char) :=
  match fuel with
  | 0 => none
  | fuel + 1 =>
    match skipWs cs with
    | '"' :: r =>
      match parseStringBody fuel r with
      | none => none
      | some (key, r2) =>
        match skipWs r2 with
        | ':' :: r3 =>
          match parseValue fuel r3 with
          | none => none
          | some (v, r4) =>
            let r4 := skipWs r4
            match r4 with
            | ',' :: r5 => (parseFields fuel r5).map (fun p => ((key, v) :: p.1, p.2))
            | '}' :: r5 => some ([(key, v)], r5)
            | _ => none
        | _ => none
    | _ => none

end

/-- `JSON.parse` on the modelled subset: parse one value and require only
trailing whitespace after it; `none` models a thrown `SyntaxError`. -/
def jsonParse (s : String) : Option Json :=
  match parseValue (4 * (s.data.length + 1)) s.data with
  | some (v, rest) => if (skipWs rest).isEmpty then some v else none
  | none => none

/-- `JSON.stringify` of an array of plain strings (none of the program's
string items needs escaping). -/
def jsonStringifyStrings (xs : List String) : String :=
  "[" ++ String.intercalate "," (xs.map (fun s => "\"" ++ s ++ "\"")) ++ "]"

/-! ## AI Gateway (src/src/services/aiService.ts) -/

/-- A role-tagged prompt message. -/
structure Message where
  role : String
  content : String
deriving DecidableEq, Repr

/-- The gateway's configuration (`env.AI`): bearer credential and enable
flag.  An empty `apiKey` models an unset credential (falsy in the
`!this.apiKey` check). -/
structure AIConfig where
  apiKey : String
  apiEnabled : Bool
deriving DecidableEq, Repr

/-- Outcome of the `fetch` call to the remote endpoint, as `sendRequest`
observes it. -/
inductive FetchOutcome where
  | throws (msg : String)
  | status401
  | statusNotOk (code : Nat) (body : String)
  | okMalformedBody
  | ok (content : String)
deriving DecidableEq, Repr

/-- `Date.toISOString()`: the wire text of an instant.  The exact ISO layout
is irrelevant to every claim (only the text's presence in a prompt matters),
so the instant's decimal form stands in for it. -/
def isoString (t : Int) : String := toString t

/-- The canned productivity-analysis paragraph of `getFallbackResponse`
(aiService.ts:87-89). -/
def analysisFallbackText : String :=
  "Based on your task patterns, I've noticed you tend to be most productive in the morning hours. You complete about 35% more tasks before noon. Consider scheduling your high-priority work early in the day.\n\n" ++
  "I also see that your task completion rate has been improving over the last week, great job! You're now completing 68% of your tasks, up from 52% previously.\n\n" ++
  "You might want to break down your larger tasks into smaller subtasks, as your completion rate is higher when tasks are more granular."

/-- The canned schedule of `getFallbackResponse` (aiService.ts:91-98). -/
def scheduleFallbackText : String :=
  "For optimal productivity, I recommend this schedule for tomorrow:\n\n" ++
  "8:00 - 10:00 AM: Work on high-priority task \"Complete project proposal\"\n" ++
  "10:15 - 11:00 AM: Handle the 3 email-related tasks batched together\n" ++
  "11:00 - 12:00 PM: Take the client call and follow up immediately\n" ++
  "12:00 - 1:00 PM: Lunch break\n" ++
  "1:00 - 3:00 PM: Continue work on medium-priority tasks\n" ++
  "3:00 - 4:30 PM: Schedule meetings and collaborative work\n" ++
  "4:30 - 5:00 PM: Review day's progress and plan for tomorrow"

/-- The 6-item subtask list that `getFallbackResponse` JSON-encodes for
break-down / decompose prompts (aiService.ts:100-107). -/
def fallbackDecomposeItems : List String :=
  ["Research and gather information",
   "Create initial draft or plan",
   "Implement core components",
   "Review and gather feedback",
   "Make refinements based on feedback",
   "Finalize and submit"]

/-- The generic helpful-assistant sentence of `getFallbackResponse`
(aiService.ts:109). -/
def genericFallbackText : String :=
  "I'm here to help you manage your tasks efficiently. I can assist with breaking down complex tasks, suggesting optimal schedules, and analyzing your productivity patterns. What would you like help with today?"

/-- `getFallbackResponse` (aiService.ts:82-111): keyword-match on the first
user-role message's content. -/
def getFallbackResponse (messages : List Message) : String :=
  let userMessage :=
    match messages.find? (fun m => m.role == "user") with
    | some m => m.content
    | none => ""
  if jsIncludes (jsToLower userMessage) "analyze" then analysisFallbackText
  else if jsIncludes (jsToLower userMessage) "schedule" then scheduleFallbackText
  else if jsIncludes (jsToLower userMessage) "break down" ||
          jsIncludes (jsToLower userMessage) "decompose" then
    jsonStringifyStrings fallbackDecomposeItems
  else genericFallbackText

/-- `sendRequest` (aiService.ts:28-77).  Returns the response text paired
with whether a network call was attempted.  Disabled gateway or missing
credential skips the call; a 401 response, a thrown fetch, a non-ok status
(whose `throw` lands in the same catch) and a malformed body all fall back;
a success returns the first choice's content verbatim. -/
def sendRequest (cfg : AIConfig) (messages : List Message) (fetch : FetchOutcome) :
    String × Bool :=
  if !cfg.apiEnabled || cfg.apiKey == "" then
    (getFallbackResponse messages, false)
  else
    match fetch with
    | .throws _ => (getFallbackResponse messages, true)
    | .status401 => (getFallbackResponse messages, true)
    | .statusNotOk _ _ => (getFallbackResponse messages, true)
    | .okMalformedBody => (getFallbackResponse messages, true)
    | .ok content => (content, true)

/-- The wire text of `TaskStatus` values. -/
def statusText : TaskStatus → String
  | .todo => "todo"
  | .inProgress => "in-progress"
  | .completed => "completed"

/-- The wire text of `Priority` values. -/
def priorityText : Priority → String
  | .low => "low"
  | .medium => "medium"
  | .high => "high"

/-- `JSON.stringify` of one summary in `getAssistantResponse`
(aiService.ts:211-216): title, status, priority, deadline-or-null. -/
def recentTaskSummaryJson (t : Task) : String :=
  "\x7b\"title\":\"" ++ t.title ++ "\",\"status\":\"" ++ statusText t.status ++
  "\",\"priority\":\"" ++ priorityText t.priority ++ "\",\"deadline\":" ++
  (match t.deadline with
   | some d => "\"" ++ isoString d.time ++ "\""
   | none => "null") ++ "\x7d"

/-- The summaries array embedded in the assistant prompt
(`recentTasks.slice(0, 5)`). -/
def recentTaskSummariesJson (recentTasks : List Task) : String :=
  "[" ++ String.intercalate "," ((recentTasks.take 5).map recentTaskSummaryJson) ++ "]"

/-- The message pair `getAssistantResponse` builds (aiService.ts:218-232). -/
def assistantMessages (userQuery : String) (recentTasks : List Task) : List Message :=
  [{ role := "system",
     content := "You are a helpful productivity assistant in a task management app. \n        You help users manage their time, prioritize tasks, and provide productivity tips.\n        Keep answers helpful, concise, and focused on task management and productivity.\n        Current user tasks: " ++ recentTaskSummariesJson recentTasks ++ "\n        \n        IMPORTANT: Respond with plain text only. Do not include any JSON formatting, code blocks, or special characters." },
   { role := "user", content := userQuery }]

/-- `getAssistantResponse` (aiService.ts:210-235). -/
def getAssistantResponse (cfg : AIConfig) (userQuery : String)
    (recentTasks : List Task) (fetch : FetchOutcome) : String × Bool :=
  sendRequest cfg (assistantMessages userQuery recentTasks) fetch

/-- The user-message content `decomposeTask` builds (aiService.ts:154-158),
template whitespace included. -/
def decomposeUserContent (taskTitle taskDescription : String) : String :=
  "Break down this task into 4-7 actionable subtasks. Format as a JSON array of strings, nothing else.\n        Task title: " ++ taskTitle ++ "\n        " ++
  (if taskDescription != "" then "Task description: " ++ taskDescription else "")

/-- The message pair `decomposeTask` sends (aiService.ts:148-159). -/
def decomposeMessages (taskTitle taskDescription : String) : List Message :=
  [{ role := "system",
     content := "You are a productivity assistant that helps break down complex tasks into manageable subtasks." },
   { role := "user", content := decomposeUserContent taskTitle taskDescription }]

/-- The fixed 5-item subtask list of `decomposeTask`'s catch block
(aiService.ts:171-177). -/
def fallbackSubtasks : List String :=
  ["Research and gather information",
   "Create initial draft/plan",
   "Implement core components",
   "Review and refine",
   "Finalize and submit"]

/-- `decomposeTask` (aiService.ts:147-179): send the prompt, strip fences
and trim, `JSON.parse`; a parse failure (thrown `SyntaxError`) lands in the
catch and yields the fixed 5-item list; a parsed non-array yields `[]`;
a parsed array is returned as-is. -/
def decomposeTask (cfg : AIConfig) (taskTitle taskDescription : String)
    (fetch : FetchOutcome) : List Json :=
  let response := (sendRequest cfg (decomposeMessages taskTitle taskDescription) fetch).1
  let extractedJson := cleanResponse response
  match jsonParse extractedJson with
  | none => fallbackSubtasks.map Json.jstr
  | some (Json.jarr xs) => xs
  | some _ => []

/-- `JSON.stringify` of one summary in `analyzeTaskPatterns`
(aiService.ts:117-128). -/
def patternTaskSummaryJson (t : Task) : String :=
  "\x7b\"id\":\"" ++ t.id ++ "\",\"title\":\"" ++ t.title ++ "\",\"status\":\"" ++
  statusText t.status ++ "\",\"priority\":\"" ++ priorityText t.priority ++
  "\",\"deadline\":" ++
  (match t.deadline with
   | some d => "\"" ++ isoString d.time ++ "\""
   | none => "null") ++
  ",\"createdAt\":\"" ++ isoString t.createdAt.time ++ "\",\"completedAt\":" ++
  (match t.completedAt with
   | some d => "\"" ++ isoString d.time ++ "\""
   | none => "null") ++
  ",\"timeTracking\":" ++
  (match t.timeTracking with
   | some tt => "\x7b\"totalTimeSpent\":" ++ toString tt.totalTimeSpent ++ "\x7d"
   | none => "null") ++ "\x7d"

/-- The message pair `analyzeTaskPatterns` sends (aiService.ts:130-139). -/
def analyzeMessages (tasks : List Task) : List Message :=
  [{ role := "system",
     content := "You are a productivity assistant that analyzes task data to find patterns and optimization opportunities. Provide insightful analysis in a conversational tone." },
   { role := "user",
     content := "Analyze these tasks and provide insights on productivity patterns, optimization opportunities, and recommendations: [" ++
       String.intercalate "," (tasks.map patternTaskSummaryJson) ++ "]" }]

/-- `analyzeTaskPatterns` (aiService.ts:116-142). -/
def analyzeTaskPatterns (cfg : AIConfig) (tasks : List Task)
    (fetch : FetchOutcome) : String × Bool :=
  sendRequest cfg (analyzeMessages tasks) fetch

/-! ## Assistant Recommendation Engine (TaskAssistantContext) -/

/-- Recommendation categories (`AssistantRecommendation.type`). -/
inductive RecType where
  | prioritization | scheduling | delegation | decomposition | pattern
deriving DecidableEq, Repr

/-- An `AssistantRecommendation` (the optional deferred `action` closure
carries no data observable by any claim and is omitted). -/
structure Recommendation where
  id : String
  rtype : RecType
  message : String
  actionText : String
  applied : Bool
  taskIds : List String
deriving DecidableEq, Repr

/-- A wall-clock reading of a `Date` as `setHours` manipulates it: calendar
day plus hour / minute / second / millisecond.  `setHours(h, m, s, ms)` with
`h < 24` (the only use here: hours 9 to 18) replaces the clock fields and
keeps the day. -/
structure WallClock where
  day : Int
  hour : Int
  minute : Int
  second : Int
  millis : Int
deriving DecidableEq, Repr

/-- `d.setHours(h, m, s, ms)` for `0 ≤ h < 24`. -/
def setHours (d : WallClock) (h m s ms : Int) : WallClock :=
  { d with hour := h, minute := m, second := s, millis := ms }

/-- A `TimeSlot` produced by the schedule generator. -/
structure TimeSlot where
  startTime : WallClock
  endTime : WallClock
  productivity : Int
  suggestion : String
deriving DecidableEq, Repr

/-- The keyword vocabulary of `findSimilarTaskClusters`
(TaskAssistantContext, line 457 of the bundled file). -/
def clusterKeywords : List String := ["report", "email", "meeting", "design"]

/-- `findSimilarTaskClusters` (TaskAssistantContext 454-472): for each
keyword, gather tasks whose title or description contains it
case-insensitively; keyword groups with at least 2 members are concatenated
(duplicates allowed). -/
def findSimilarTaskClusters (tasks : List Task) : List Task :=
  clusterKeywords.foldl (fun result keyword =>
    let matched := tasks.filter (fun t =>
      jsIncludes (jsToLower t.title) keyword ||
      (match t.description with
       | some d => jsIncludes (jsToLower d) keyword
       | none => false))
    if matched.length ≥ 2 then result ++ matched else result) []

/-- `generateOptimalSchedule` (TaskAssistantContext 474-504): five slots at
9:00, 11:00, 13:00, 15:00, 17:00 of the current day, each ending at hour+1
:30 (1.5 h later), with productivity `min(10, max(1, 5 + ⌊random()*5⌋))` and
the tiered suggestion text.  `rand i` is the `Math.random()` draw of
iteration `i`, a rational in `[0, 1)`; the `tasks` parameter is unused, as
in the source. -/
def generateOptimalSchedule (tasks : List Task) (now : WallClock)
    (rand : Nat → ℚ) : List TimeSlot :=
  (List.range 5).map (fun (i : Nat) =>
    let startTime := setHours now (9 + 2 * (i : Int)) 0 0 0
    let endTime := setHours startTime (startTime.hour + 1) 30 0 0
    let productivity : Int := min 10 (max 1 (5 + ⌊rand i * 5⌋))
    { startTime := startTime
      endTime := endTime
      productivity := productivity
      suggestion :=
        if productivity > 8 then "Focus on complex tasks"
        else if productivity > 5 then "Good for moderate difficulty tasks"
        else "Best for simple tasks" })

/-- The overdue high-priority filter of the recommendation pass
(TaskAssistantContext 398-403): status not completed, a deadline in the
past, priority high. -/
def overdueHighPriorityTasks (tasks : List Task) (now : Int) : List Task :=
  tasks.filter (fun t =>
    t.status != TaskStatus.completed &&
    (match t.deadline with
     | some d => d.time < now
     | none => false) &&
    t.priority == Priority.high)

/-- The ambient inputs of one recommendation recomputation pass: the pass
time (`Date.now()` used in recommendation ids), the instant and wall-clock
reading of `new Date()`, the `Math.random()` draws, and the AI Gateway's
configuration and transport outcome. -/
structure EngineEnv where
  passTime : Int
  now : Int
  wallNow : WallClock
  rand : Nat → ℚ
  cfg : AIConfig
  fetch : FetchOutcome

/-- One execution of `analyzeTasksAndGenerateRecommendations`
(TaskAssistantContext 367-452): the list of new recommendations in push
order, the optimal slot list, and the insights text (empty when fewer than
3 tasks).  `sendRequest` returns normally on every outcome, so the
`catch` around the AI call is never entered. -/
def analyzeTasksAndGenerateRecommendations (tasks : List Task) (env : EngineEnv) :
    List Recommendation × List TimeSlot × String :=
  let aiPart : List Recommendation × String :=
    if tasks.length ≥ 3 then
      ([{ id := "ai-insight-" ++ toString env.passTime
          rtype := RecType.pattern
          message := "I've analyzed your tasks and found some productivity patterns and insights."
          actionText := "View AI Analysis"
          applied := false
          taskIds := tasks.map (fun t => t.id) }],
       (analyzeTaskPatterns env.cfg tasks env.fetch).1)
    else ([], "")
  let overdue := overdueHighPriorityTasks tasks env.now
  let overdueRecs : List Recommendation :=
    if overdue.length > 0 then
      [{ id := "overdue-" ++ toString env.passTime
         rtype := RecType.prioritization
         message := "You have " ++ toString overdue.length ++
           " overdue high-priority tasks that need immediate attention."
         actionText := "Focus on these first"
         applied := false
         taskIds := overdue.map (fun t => t.id) }]
    else []
  let similarTasks := findSimilarTaskClusters tasks
  let batchRecs : List Recommendation :=
    if similarTasks.length > 2 then
      [{ id := "batch-" ++ toString env.passTime
         rtype := RecType.pattern
         message := "I've identified " ++ toString similarTasks.length ++
           " similar tasks that could be batched together for better efficiency."
         actionText := "Create task batch"
         applied := false
         taskIds := similarTasks.map (fun t => t.id) }]
    else []
  let optimizedSchedule := generateOptimalSchedule tasks env.wallNow env.rand
  let scheduleRecs : List Recommendation :=
    if optimizedSchedule.length > 0 then
      [{ id := "schedule-" ++ toString env.passTime
         rtype := RecType.scheduling
         message := "I've analyzed your productivity patterns and created an optimized schedule for your tasks."
         actionText := "View optimized schedule"
         applied := false
         taskIds := tasks.map (fun t => t.id) }]
    else []
  (aiPart.1 ++ overdueRecs ++ batchRecs ++ scheduleRecs, optimizedSchedule, aiPart.2)

/-- The recommendation-state update of one pass
(`setRecommendations(prev => [...prev, ...newRecommendations])`,
TaskAssistantContext 446): new recommendations are appended, prior ones kept. -/
def recomputePass (prev : List Recommendation) (tasks : List Task)
    (env : EngineEnv) : List Recommendation :=
  prev ++ (analyzeTasksAndGenerateRecommendations tasks env).1

/-! ## Timer call sequences and the open-session invariant -/

/-- One Time Tracking call against a fixed task id. -/
inductive TimerOp where
  | start (now : JsDate)
  | stop (now : JsDate)

/-- Execute one timer call (the collection after the call). -/
def applyTimerOp (tasks : List Task) (taskId : String) (res : AdapterResults) :
    TimerOp → List Task
  | .start now => (startTaskTimer tasks taskId now res).1
  | .stop now => (stopTaskTimer tasks taskId now res).1

/-- Execute a sequence of timer calls in order. -/
def runTimerOps (tasks : List Task) (taskId : String) (res : AdapterResults) :
    List TimerOp → List Task
  | [] => tasks
  | op :: rest => runTimerOps (applyTimerOp tasks taskId res op) taskId res rest

/-- Whether the task currently has a session with an absent end instant. -/
def hasOpenSession (tasks : List Task) (taskId : String) : Bool :=
  match getTaskById tasks taskId with
  | none => false
  | some t =>
    match t.timeTracking with
    | none => false
    | some tt => tt.sessions.any (fun s => s.endTime.isNone)

/-- The documented no-op guard of §4.2: `startTimer` is never invoked while
a session is already open (`stopTimer`'s guards are enforced by the code
itself). -/
def timerGuardsRespected (tasks : List Task) (taskId : String)
    (res : AdapterResults) : List TimerOp → Bool
  | [] => true
  | .start now :: rest =>
    !hasOpenSession tasks taskId &&
    timerGuardsRespected (applyTimerOp tasks taskId res (.start now)) taskId res rest
  | .stop now :: rest =>
    timerGuardsRespected (applyTimerOp tasks taskId res (.stop now)) taskId res rest

/-- The claimed invariant on a session list: at most one session has an
absent end instant, and every session other than the last is closed (so an
open session, if any, is the last element). -/
def sessionInvB (ss : List Session) : Bool :=
  decide ((ss.filter (fun s => s.endTime.isNone)).length ≤ 1) &&
  ss.dropLast.all (fun s => s.endTime.isSome)

/-- The invariant at the tracked task (vacuous when the task or its record
is absent). -/
def taskSessionInvB (tasks : List Task) (taskId : String) : Bool :=
  match getTaskById tasks taskId with
  | none => true
  | some t =>
    match t.timeTracking with
    | none => true
    | some tt => sessionInvB tt.sessions

/-! ## Concrete inputs for counterexamples and witnesses -/

/-- A minimal well-formed task. -/
def baseTask : Task :=
  { id := "t1", title := "Write report", description := none,
    status := TaskStatus.todo, priority := Priority.medium,
    deadline := none, startTime := none, duration := none, tags := none,
    createdAt := ⟨100, 10⟩, updatedAt := ⟨101, 20⟩, createdBy := "user-1",
    timeTracking := none, recurrence := none, calendarEventId := none,
    notificationIds := none, completedAt := none }

/-- Stored task: deadline object no. 0 at instant 1000, with live calendar
and reminder references. -/
def c1OldTask : Task :=
  { baseTask with
    priority := Priority.high, deadline := some ⟨0, 1000⟩,
    calendarEventId := some "e1", notificationIds := some ["n1"] }

/-- The same task sent to `updateTask` carrying a distinct deadline object
(no. 1) at the same instant 1000. -/
def c1NewTask : Task :=
  { c1OldTask with deadline := some ⟨1, 1000⟩ }

/-- Adapter returns for the update: two fresh reminder ids, no new event. -/
def c1Res : AdapterResults := { scheduleResult := ["n2"], createResult := none }

/-- A persisted task exercising every date-valued field of the round-trip
claim. -/
def c2Comment : JComment :=
  { id := "c1", text := "Looks good", createdAt := JVal.date 222,
    userId := "u1", userName := "Ann" }

/-- A completed task with a comment, a closed session and a recurrence end
date, all date fields `Date`-valued before persistence. -/
def c2Task : JTask :=
  { id := "t2", title := "Quarterly report", description := some "Finance",
    status := TaskStatus.completed, priority := Priority.high,
    deadline := some (JVal.date 3), startTime := some (JVal.date 4),
    duration := some 30, tags := some ["work"],
    createdAt := JVal.date 1, updatedAt := JVal.date 2, createdBy := "user-1",
    comments := some [c2Comment],
    timeTracking := some
      { totalTimeSpent := 5,
        sessions := [{ startTime := JVal.date 6, endTime := some (JVal.date 7),
                       duration := some 1 }] },
    recurrence := some
      { rtype := RecurrenceType.weekly, interval := 1,
        endDate := some (JVal.date 8), count := none },
    calendarEventId := some "e2", notificationIds := some ["n1"],
    completedAt := some (JVal.date 111) }

/-- An enabled gateway configuration with a credential. -/
def c4Cfg : AIConfig := { apiKey := "test-key", apiEnabled := true }

/-- A task with one open session started at instant 0. -/
def c6Task : Task :=
  { baseTask with
    id := "t6"
    timeTracking := some
      { totalTimeSpent := 0,
        sessions := [{ startTime := ⟨5, 0⟩, endTime := none, duration := none }] } }

/-- The instant 125 seconds after the open session's start. -/
def c6Now : JsDate := ⟨6, 125000⟩

/-- The expected entity after `stopTaskTimer` at `c6Now`: the session closed
with duration 2 whole minutes and the total raised by 2. -/
def c6Stopped : Task :=
  { c6Task with
    timeTracking := some
      { totalTimeSpent := 2,
        sessions := [{ startTime := ⟨5, 0⟩, endTime := some c6Now,
                       duration := some 2 }] } }

/-- An overdue high-priority task: deadline instant 500, before the pass's
`new Date()` at 1000. -/
def c7Overdue : Task :=
  { baseTask with
    id := "t-over", title := "Pay invoice",
    priority := Priority.high, deadline := some ⟨7, 500⟩ }

/-- Three tasks, exactly one of them overdue and high-priority. -/
def c7Tasks : List Task :=
  [c7Overdue,
   { baseTask with
     id := "t-b", title := "Walk dog" },
   { baseTask with
     id := "t-c", title := "Buy milk" }]

/-- A concrete pass environment: pass time 42, `new Date()` = instant 1000
read as day 20000 08:15, `Math.random()` constantly 1/2, gateway disabled. -/
def c7Env : EngineEnv :=
  { passTime := 42, now := 1000,
    wallNow := { day := 20000, hour := 8, minute := 15, second := 0, millis := 0 },
    rand := fun _ => 1/2,
    cfg := { apiKey := "", apiEnabled := false },
    fetch := FetchOutcome.status401 }

/-- The prioritization recommendation the pass over `c7Tasks` must emit. -/
def c7Rec : Recommendation :=
  { id := "overdue-42", rtype := RecType.prioritization,
    message := "You have 1 overdue high-priority tasks that need immediate attention.",
    actionText := "Focus on these first", applied := false,
    taskIds := ["t-over"] }

/-- A disabled gateway configuration. -/
def c9Cfg : AIConfig := { apiKey := "", apiEnabled := false }

/-! ## Helper lemmas -/

/-- A successful lookup returns a task bearing the looked-up id. -/
theorem getTaskById_id {tasks : List Task} {tid : String} {t : Task}
    (h : getTaskById tasks tid = some t) : t.id = tid := by
  have := List.find?_some h
  simpa using this

/-- Replacing after a successful lookup: the replacement (carrying the same
id) is what a fresh lookup returns. -/
theorem getTaskById_replaceById {tasks : List Task} {tid : String} {t t2 : Task}
    (hfind : getTaskById tasks tid = some t) (hid : t2.id = tid) :
    getTaskById (replaceById tasks t2) tid = some t2 := by
  induction tasks with
  | nil => simp [getTaskById] at hfind
  | cons h hs ih =>
    by_cases hh : h.id = tid
    · simp [getTaskById, replaceById, List.find?, hh, hid]
    · have hh' : (h.id == tid) = false := by simp [hh]
      have hh2 : (h.id == t2.id) = false := by simp [hid, hh]
      have hfind' : getTaskById hs tid = some t := by
        simpa [getTaskById, List.find?, hh'] using hfind
      have ihh := ih hfind'
      simp only [getTaskById, replaceById] at ihh ⊢
      simpa [List.find?, hh2, hh'] using ihh

/-- The deadline-changed block only rewrites the reference fields: id,
`updatedAt`, `timeTracking` and `deadline` pass through unchanged. -/
theorem applyDeadlineSideEffects_preserves (task oldTask : Task)
    (res : AdapterResults) :
    (applyDeadlineSideEffects task oldTask res).1.id = task.id
    ∧ (applyDeadlineSideEffects task oldTask res).1.updatedAt = task.updatedAt
    ∧ (applyDeadlineSideEffects task oldTask res).1.timeTracking = task.timeTracking
    ∧ (applyDeadlineSideEffects task oldTask res).1.deadline = task.deadline := by
  unfold applyDeadlineSideEffects
  rcases hd : task.deadline with _ | d
  · rcases hc : oldTask.calendarEventId with _ | eid <;>
      rcases hn : oldTask.notificationIds with _ | ids <;> simp [hd, hc, hn]
  · by_cases hs : 0 < res.scheduleResult.length <;>
      rcases hc : oldTask.calendarEventId with _ | eid <;>
        rcases hn : oldTask.notificationIds with _ | ids <;>
          rcases hr : res.createResult with _ | nid <;>
            simp [hd, hc, hn, hs, hr]

/-- `updateTask` stores an entity with the caller's id, `updatedAt` and
`timeTracking`, and the collection is that entity replacing the old. -/
theorem updateTask_result_entity (tasks : List Task) (task : Task)
    (res : AdapterResults) :
    ∃ t3 : Task, (updateTask tasks task res).1 = replaceById tasks t3
      ∧ t3.id = task.id ∧ t3.updatedAt = task.updatedAt
      ∧ t3.timeTracking = task.timeTracking := by
  unfold updateTask
  rcases hfind : getTaskById tasks task.id with _ | old
  · exact ⟨task, rfl, rfl, rfl, rfl⟩
  · rcases h : optDateStrictNe task.deadline old.deadline with _ | _
    · simp only [h, Bool.false_eq_true, if_false]
      exact ⟨task, rfl, rfl, rfl, rfl⟩
    · simp only [h, if_true]
      obtain ⟨h1, h2, h3, _⟩ := applyDeadlineSideEffects_preserves task old res
      exact ⟨(applyDeadlineSideEffects task old res).1, rfl, h1, h2, h3⟩

/-! ## C1 — deadline comparison in `updateTask` -/

/-- C1 (counterexample): `updateTask` with a new deadline object at the very
same instant as the stored one (instant 1000 in both) still performs adapter
work — it cancels the old reminders, schedules fresh ones and updates the
calendar event — and stores an entity with rewritten reminder references
rather than simply replacing with the caller's entity.  The claim's
"deadline equal (same instant) ⇒ no adapter operations" is false on the
code, which compares the two `Date` objects with `!==` (reference
inequality). -/
theorem updateTask_same_instant_still_calls_adapters :
    c1NewTask.deadline.map JsDate.time = c1OldTask.deadline.map JsDate.time
    ∧ (updateTask [c1OldTask] c1NewTask c1Res).2 =
        [AdapterOp.cancelReminders ["n1"], AdapterOp.scheduleReminders "t1",
         AdapterOp.calendarUpdate "e1" "t1"]
    ∧ (updateTask [c1OldTask] c1NewTask c1Res).2 ≠ []
    ∧ (updateTask [c1OldTask] c1NewTask c1Res).1 =
        [{ c1NewTask with notificationIds := some ["n2"] }] := by
  refine ⟨by decide, by decide, by decide, by decide⟩

/-- C1 (amended): the frame condition holds for reference equality, not
instant equality — when the new task's deadline is **the same `Date` object**
as the stored one (or both are absent), `updateTask` performs no calendar or
reminder adapter operation and the entity is simply replaced in the
collection. -/
theorem updateTask_same_reference_no_adapter_ops (tasks : List Task)
    (task oldTask : Task) (res : AdapterResults)
    (hfind : getTaskById tasks task.id = some oldTask)
    (heq : optDateStrictNe task.deadline oldTask.deadline = false) :
    updateTask tasks task res = (replaceById tasks task, []) := by
  simp [updateTask, hfind, heq]

/-- C1 witness: updating `c1OldTask` with itself (same deadline object)
performs no adapter operation. -/
theorem updateTask_same_reference_no_adapter_ops_witness :
    getTaskById [c1OldTask] c1OldTask.id = some c1OldTask
    ∧ optDateStrictNe c1OldTask.deadline c1OldTask.deadline = false
    ∧ updateTask [c1OldTask] c1OldTask c1Res = (replaceById [c1OldTask] c1OldTask, []) :=
  ⟨by decide, by decide,
   updateTask_same_reference_no_adapter_ops [c1OldTask] c1OldTask c1OldTask c1Res
     (by decide) (by decide)⟩

/-! ## C2 — persistence round-trip of date fields -/

/-- C2: reloading a persisted task restores `createdAt`, `updatedAt`,
`deadline`, `startTime`, the session instants and the recurrence end date as
dates equal to the originals — but `completedAt` and the comment timestamp
come back as their ISO wire strings, not dates: the revival mapping of
`loadTasks` never touches them, contradicting the claim (and the declared
`Date` types of those fields). -/
theorem roundtrip_misses_completedAt_and_comment_dates :
    roundtripTasks [c2Task] =
      [{ c2Task with
          completedAt := some (JVal.str 111)
          comments := some [{ c2Comment with createdAt := JVal.str 222 }] }]
    ∧ (JVal.str 111 : JVal) ≠ JVal.date 111
    ∧ c2Task.completedAt = some (JVal.date 111) := by
  refine ⟨by decide, by decide, by decide⟩

/-! ## C3 — error propagation policy of the mutations -/

/-- C3 (counterexample): a failing durable write is caught and logged inside
the save routine — the caller of the triggering mutation observes success,
not the claimed propagated error. -/
theorem write_failure_not_propagated :
    persistAfterChange [baseTask] (WriteOutcome.failure "disk full") =
      Except.ok () := rfl

/-- C3 (amended): persistence write failures are swallowed by the save
routine (`saveTasks` catches and logs), so no mutation caller ever observes
them; adapter failures are absorbed inside the adapter services themselves
(a throwing platform call yields no reference), and `addTask` succeeds —
appending an entity with the caller's id — whatever the adapters and the
write do. -/
theorem mutation_error_policy (tasks : List Task) (w : WriteOutcome)
    (task : Task) (o1 : CallOutcome (Option String))
    (o2 : CallOutcome (List String)) :
    persistAfterChange tasks w = Except.ok ()
    ∧ ((addTask tasks task
        { scheduleResult := scheduleTaskReminder o2,
          createResult := addTaskToCalendar o1 }).1).length = tasks.length + 1
    ∧ ((addTask tasks task
        { scheduleResult := scheduleTaskReminder o2,
          createResult := addTaskToCalendar o1 }).1).getLast?.map Task.id =
        some task.id := by
  refine ⟨?_, ?_, ?_⟩
  · unfold persistAfterChange saveTasks
    cases w <;> split <;> rfl
  · unfold addTask
    rcases task.deadline with _ | d <;> simp
  · unfold addTask
    rcases hd : task.deadline with _ | d <;>
      simp [List.getLast?_concat] <;> split <;> split <;> simp

/-! ## More helper lemmas (updateTask framing) -/

/-- `x !== x` is false, and so is `undefined !== undefined`. -/
theorem optDateStrictNe_self (x : Option JsDate) :
    optDateStrictNe x x = false := by
  cases x <;> simp [optDateStrictNe]

/-- `updateTask` with an unchanged (`!==`-equal) deadline: plain replacement,
no adapter call. -/
theorem updateTask_unchanged_deadline (tasks : List Task) (task oldTask : Task)
    (res : AdapterResults) (hfind : getTaskById tasks task.id = some oldTask)
    (heq : optDateStrictNe task.deadline oldTask.deadline = false) :
    updateTask tasks task res = (replaceById tasks task, []) := by
  simp [updateTask, hfind, heq]

/-- `updateTask` rewrites the `(id, updatedAt)` pairs of the collection with
exactly the caller's `updatedAt` at the matching id — it never refreshes the
field itself. -/
theorem updateTask_stores_caller_updatedAt (tasks : List Task) (task : Task)
    (res : AdapterResults) :
    ((updateTask tasks task res).1).map (fun t => (t.id, t.updatedAt)) =
      tasks.map (fun t =>
        (t.id, if t.id = task.id then task.updatedAt else t.updatedAt)) := by
  obtain ⟨t3, heq, hid, hup, -⟩ := updateTask_result_entity tasks task res
  rw [heq]
  unfold replaceById
  rw [List.map_map]
  apply List.map_congr_left
  intro a _
  by_cases h : a.id = task.id
  · simp [Function.comp, hid, h, hup]
  · simp [Function.comp, hid, h]

/-- Routing an entity whose `updatedAt` equals the stored one through
`updateTask` leaves every `(id, updatedAt)` pair of the collection unchanged
(ids assumed unique, as the data-model invariant requires). -/
theorem updateTask_found_keeps_pairs (tasks : List Task) (task2 : Task)
    (res : AdapterResults) (h : (tasks.map Task.id).Nodup) (task : Task)
    (hfind : getTaskById tasks task2.id = some task)
    (hup : task2.updatedAt = task.updatedAt) :
    ((updateTask tasks task2 res).1).map (fun t => (t.id, t.updatedAt)) =
      tasks.map (fun t => (t.id, t.updatedAt)) := by
  rw [updateTask_stores_caller_updatedAt]
  apply List.map_congr_left
  intro a ha
  by_cases hh : a.id = task2.id
  · have htask : task ∈ tasks := List.mem_of_find?_eq_some hfind
    have hidt : task.id = task2.id := getTaskById_id hfind
    have : a = task :=
      List.inj_on_of_nodup_map h ha htask (by rw [hh, hidt])
    simp [hh, hup, this]
  · simp [hh]

/-! ## C8 — `updatedAt` across mutations -/

/-- C8 (counterexample): `startTaskTimer` at mutation instant 500 leaves the
task's `updatedAt` at its prior value (instant 20) — the field is not
refreshed to the mutation time by the timer mutations. -/
theorem startTimer_leaves_updatedAt_stale :
    ((startTaskTimer [baseTask] "t1" ⟨9, 500⟩ c1Res).1).map
        (fun t => t.updatedAt) = [⟨101, 20⟩]
    ∧ baseTask.updatedAt.time = 20 ∧ (⟨9, 500⟩ : JsDate).time = 500
    ∧ (20 : Int) ≠ 500 := by
  refine ⟨by decide, by decide, by decide, by decide⟩

/-- C8 (amended): no Task Store mutation refreshes `updatedAt`.
`updateTask` stores the caller-supplied `updatedAt` verbatim at the matching
id (so monotonicity holds only if callers provide it), and `startTaskTimer`/
`stopTaskTimer` preserve every task's previous `updatedAt` exactly (the
spread `{...task}` keeps the old value, hence trivially non-decreasing but
never set to the mutation time). -/
theorem mutations_never_refresh_updatedAt (tasks : List Task)
    (h : (tasks.map Task.id).Nodup) :
    (∀ task res, ((updateTask tasks task res).1).map (fun t => (t.id, t.updatedAt)) =
      tasks.map (fun t =>
        (t.id, if t.id = task.id then task.updatedAt else t.updatedAt)))
    ∧ (∀ taskId now res,
        ((startTaskTimer tasks taskId now res).1).map (fun t => (t.id, t.updatedAt)) =
          tasks.map (fun t => (t.id, t.updatedAt)))
    ∧ (∀ taskId now res,
        ((stopTaskTimer tasks taskId now res).1).map (fun t => (t.id, t.updatedAt)) =
          tasks.map (fun t => (t.id, t.updatedAt))) := by
  refine ⟨fun task res => updateTask_stores_caller_updatedAt tasks task res, ?_, ?_⟩
  · intro taskId now res
    unfold startTaskTimer
    rcases hfind : getTaskById tasks taskId with _ | task
    · rfl
    · have hid : task.id = taskId := getTaskById_id hfind
      exact updateTask_found_keeps_pairs tasks _ res h task
        (by simpa [hid] using hfind) rfl
  · intro taskId now res
    unfold stopTaskTimer
    rcases hfind : getTaskById tasks taskId with _ | task
    · rfl
    · have hid : task.id = taskId := getTaskById_id hfind
      rcases htt : task.timeTracking with _ | tt
      · simp [htt]
      · rcases hlast : tt.sessions.getLast? with _ | s
        · simp [htt, hlast]
        · rcases hopen : s.endTime with _ | e
          · simp only [htt, hlast, hopen, Option.isSome_none,
              Bool.false_eq_true, if_false]
            exact updateTask_found_keeps_pairs tasks _ res h task
              (by simpa [hid] using hfind) rfl
          · simp [htt, hlast, hopen]

/-- C8 witness: on a singleton collection with distinct ids,
`startTaskTimer` keeps every `(id, updatedAt)` pair. -/
theorem mutations_never_refresh_updatedAt_witness :
    ([baseTask].map Task.id).Nodup
    ∧ ((startTaskTimer [baseTask] "t1" ⟨9, 500⟩ c1Res).1).map
        (fun t => (t.id, t.updatedAt)) =
      [baseTask].map (fun t => (t.id, t.updatedAt)) :=
  ⟨by decide,
   (mutations_never_refresh_updatedAt [baseTask] (by decide)).2.1 "t1" ⟨9, 500⟩ c1Res⟩

/-! ## C6 — `stopTaskTimer` duration arithmetic -/

/-- C6: stopping an existing task's open last session at `now` closes the
session at `now`, sets its duration to the elapsed whole minutes (JavaScript
`Math.round((now - start) / 60000)`, embedded as `jsRound`), and raises the
cumulative total by exactly that duration; the updated entity replaces the
old one in the collection. -/
theorem stopTimer_rounds_elapsed_minutes (tasks : List Task) (taskId : String)
    (now : JsDate) (res : AdapterResults) (task : Task) (tt : TimeTracking)
    (s : Session)
    (hfind : getTaskById tasks taskId = some task)
    (htt : task.timeTracking = some tt)
    (hlast : tt.sessions.getLast? = some s)
    (hopen : s.endTime = none) :
    getTaskById ((stopTaskTimer tasks taskId now res).1) taskId =
      some { task with
             timeTracking := some
               { totalTimeSpent :=
                   tt.totalTimeSpent + jsRound (now.time - s.startTime.time) 60000,
                 sessions := tt.sessions.dropLast ++
                   [{ s with
                      endTime := some now,
                      duration := some (jsRound (now.time - s.startTime.time) 60000) }] } } := by
  have hid : task.id = taskId := getTaskById_id hfind
  unfold stopTaskTimer
  rw [hfind]
  simp only [htt, hlast, hopen, Option.isSome_none, Bool.false_eq_true, if_false]
  rw [updateTask_unchanged_deadline tasks _ task res (by simpa [hid] using hfind)
    (by simpa using optDateStrictNe_self task.deadline)]
  exact getTaskById_replaceById hfind (by simpa using hid)

/-- C6 witness (the 125-second scenario): starting at instant 0 and stopping
125 000 ms later yields one closed session with `duration = 2` and
`totalTimeSpent = 2`. -/
theorem stopTimer_rounds_elapsed_minutes_witness :
    getTaskById [c6Task] "t6" = some c6Task
    ∧ c6Task.timeTracking = some
        { totalTimeSpent := 0,
          sessions := [{ startTime := ⟨5, 0⟩, endTime := none, duration := none }] }
    ∧ jsRound (c6Now.time - (⟨5, 0⟩ : JsDate).time) 60000 = 2
    ∧ getTaskById ((stopTaskTimer [c6Task] "t6" c6Now c1Res).1) "t6" = some c6Stopped :=
  ⟨by decide, by decide, by decide,
   (stopTimer_rounds_elapsed_minutes [c6Task] "t6" c6Now c1Res c6Task
      { totalTimeSpent := 0,
        sessions := [{ startTime := ⟨5, 0⟩, endTime := none, duration := none }] }
      { startTime := ⟨5, 0⟩, endTime := none, duration := none }
      (by decide) (by decide) (by decide) (by decide)).trans (by decide)⟩

/-! ## C5 — the open-session invariant under guarded timer sequences -/

/-- A list of closed sessions has no open one. -/
theorem filter_open_eq_nil {ss : List Session}
    (h : ∀ s ∈ ss, s.endTime.isSome = true) :
    ss.filter (fun s => s.endTime.isNone) = [] := by
  apply List.filter_eq_nil_iff.mpr
  intro s hs
  simp [Option.isNone_iff_eq_none]
  rcases hh : s.endTime with _ | e
  · exact absurd (hh ▸ h s hs) (by simp)
  · simp

/-- A list of closed sessions satisfies the invariant. -/
theorem sessionInvB_of_all_closed {ss : List Session}
    (h : ∀ s ∈ ss, s.endTime.isSome = true) : sessionInvB ss = true := by
  unfold sessionInvB
  rw [filter_open_eq_nil h]
  simp [List.all_eq_true]
  intro s hs
  exact h s (List.dropLast_subset ss hs)

/-- Appending any session to a list of closed ones satisfies the invariant
(the new session, open or closed, is the last element). -/
theorem sessionInvB_concat {ss : List Session} (s' : Session)
    (h : ∀ s ∈ ss, s.endTime.isSome = true) :
    sessionInvB (ss ++ [s']) = true := by
  unfold sessionInvB
  rw [List.dropLast_concat, List.filter_append, filter_open_eq_nil h,
    Bool.and_eq_true]
  refine ⟨?_, List.all_eq_true.mpr h⟩
  rw [List.nil_append]
  cases hh : s'.endTime.isNone <;> simp [List.filter_cons, hh]

/-- `startTaskTimer` on a found task routes the session-appended entity
through `updateTask`. -/
theorem startTaskTimer_eq_of_find (tasks : List Task) (taskId : String)
    (now : JsDate) (res : AdapterResults) (task : Task)
    (hfind : getTaskById tasks taskId = some task) :
    startTaskTimer tasks taskId now res =
      updateTask tasks { task with
        timeTracking := some
          { totalTimeSpent :=
              (task.timeTracking.getD { totalTimeSpent := 0, sessions := [] }).totalTimeSpent,
            sessions :=
              (task.timeTracking.getD { totalTimeSpent := 0, sessions := [] }).sessions ++
                [{ startTime := now, endTime := none, duration := none }] } } res := by
  unfold startTaskTimer
  rw [hfind]

/-- `startTaskTimer` re-establishes the invariant whenever its documented
guard (no session currently open) holds. -/
theorem startTaskTimer_keeps_inv (tasks : List Task) (taskId : String)
    (now : JsDate) (res : AdapterResults)
    (hno : hasOpenSession tasks taskId = false) :
    taskSessionInvB ((startTaskTimer tasks taskId now res).1) taskId = true := by
  rcases hfind : getTaskById tasks taskId with _ | task
  · unfold startTaskTimer
    rw [hfind]
    simp [taskSessionInvB, hfind]
  · have hid : task.id = taskId := getTaskById_id hfind
    unfold hasOpenSession at hno
    rw [hfind] at hno
    have hno1 : (match task.timeTracking with
        | none => false
        | some tt => tt.sessions.any (fun s => s.endTime.isNone)) = false := hno
    have hclosed : ∀ s ∈ (task.timeTracking.getD
        { totalTimeSpent := 0, sessions := [] }).sessions,
        s.endTime.isSome = true := by
      rcases htt : task.timeTracking with _ | tt
      · simp [htt]
      · rw [htt] at hno1
        have hno2 : tt.sessions.any (fun s => s.endTime.isNone) = false := hno1
        simp only [htt, Option.getD_some]
        intro s hs
        rcases hh : s.endTime with _ | e
        · have hany : tt.sessions.any (fun x => x.endTime.isNone) = true :=
            List.any_eq_true.mpr ⟨s, hs, by simp [hh]⟩
          rw [hany] at hno2
          simp at hno2
        · simp [hh]
    rw [startTaskTimer_eq_of_find tasks taskId now res task hfind]
    rw [updateTask_unchanged_deadline tasks _ task res
      (by simpa [hid] using hfind) (by simpa using optDateStrictNe_self task.deadline)]
    unfold taskSessionInvB
    rw [getTaskById_replaceById hfind (by simpa using hid)]
    exact sessionInvB_concat _ hclosed

/-- `stopTaskTimer` preserves the invariant unconditionally (its guards are
in the code). -/
theorem stopTaskTimer_keeps_inv (tasks : List Task) (taskId : String)
    (now : JsDate) (res : AdapterResults)
    (hinv : taskSessionInvB tasks taskId = true) :
    taskSessionInvB ((stopTaskTimer tasks taskId now res).1) taskId = true := by
  unfold stopTaskTimer
  rcases hfind : getTaskById tasks taskId with _ | task
  · simpa using hinv
  · have hid : task.id = taskId := getTaskById_id hfind
    rcases htt : task.timeTracking with _ | tt
    · simpa [htt] using hinv
    · rcases hlast : tt.sessions.getLast? with _ | s
      · simpa [htt, hlast] using hinv
      · rcases hopen : s.endTime with _ | e
        · simp only [htt, hlast, hopen, Option.isSome_none,
            Bool.false_eq_true, if_false]
          have hdrop : ∀ x ∈ tt.sessions.dropLast, x.endTime.isSome = true := by
            unfold taskSessionInvB at hinv
            rw [hfind] at hinv
            have hinv1 : (match task.timeTracking with
                | none => true
                | some tt => sessionInvB tt.sessions) = true := hinv
            rw [htt] at hinv1
            have hinv2 : sessionInvB tt.sessions = true := hinv1
            unfold sessionInvB at hinv2
            rw [Bool.and_eq_true] at hinv2
            exact List.all_eq_true.mp hinv2.2
          rw [updateTask_unchanged_deadline tasks _ task res
            (by simpa [hid] using hfind)
            (by simpa using optDateStrictNe_self task.deadline)]
          unfold taskSessionInvB
          rw [getTaskById_replaceById hfind (by simpa using hid)]
          apply sessionInvB_of_all_closed
          intro x hx
          rcases List.mem_append.mp hx with h1 | h2
          · exact hdrop x h1
          · have hxe : x = { s with
                endTime := some now
                duration := some (jsRound (now.time - s.startTime.time) 60000) } := by
              simpa using h2
            rw [hxe]
            rfl
        · simpa [htt, hlast, hopen] using hinv

/-- C5: starting from any state satisfying the invariant (a fresh task
does), a finite timer-call sequence that respects the documented guard —
`startTimer` never invoked while a session is open — keeps the task's
session list with at most one open session, the open one (if any) last. -/
theorem timer_sequences_one_open_session (ops : List TimerOp)
    (tasks : List Task) (taskId : String) (res : AdapterResults)
    (hinv : taskSessionInvB tasks taskId = true)
    (hg : timerGuardsRespected tasks taskId res ops = true) :
    taskSessionInvB (runTimerOps tasks taskId res ops) taskId = true := by
  induction ops generalizing tasks with
  | nil => exact hinv
  | cons op rest ih =>
    cases op with
    | start now =>
      unfold timerGuardsRespected at hg
      rw [Bool.and_eq_true] at hg
      exact ih _ (startTaskTimer_keeps_inv _ _ _ _ (by simpa using hg.1)) hg.2
    | stop now =>
      unfold timerGuardsRespected at hg
      exact ih _ (stopTaskTimer_keeps_inv _ _ _ _ hinv) hg

/-- C5 witness: a stop followed by a fresh start on a task with one open
session respects the guards and keeps the invariant. -/
theorem timer_sequences_one_open_session_witness :
    taskSessionInvB [c6Task] "t6" = true
    ∧ timerGuardsRespected [c6Task] "t6" c1Res
        [TimerOp.stop c6Now, TimerOp.start ⟨7, 200000⟩] = true
    ∧ taskSessionInvB
        (runTimerOps [c6Task] "t6" c1Res
          [TimerOp.stop c6Now, TimerOp.start ⟨7, 200000⟩]) "t6" = true :=
  ⟨by decide, by decide,
   timer_sequences_one_open_session _ [c6Task] "t6" c1Res (by decide) (by decide)⟩

/-! ## C9 — deterministic fallback of the disabled gateway -/

/-- C9: with the gateway disabled (or no credential configured), any two
`getAssistantResponse` calls for the query "please analyze my week" — with
any task lists and any transport outcomes — both return the canned
productivity-analysis paragraph, and neither attempts a network call: the
output is a function of the prompt keywords alone. -/
theorem assistant_analyze_fallback_deterministic (cfg : AIConfig)
    (hdis : cfg.apiEnabled = false ∨ cfg.apiKey = "")
    (tasks1 tasks2 : List Task) (fetch1 fetch2 : FetchOutcome) :
    getAssistantResponse cfg "please analyze my week" tasks1 fetch1 =
      (analysisFallbackText, false)
    ∧ getAssistantResponse cfg "please analyze my week" tasks2 fetch2 =
      (analysisFallbackText, false) := by
  have hcond : (!cfg.apiEnabled || cfg.apiKey == "") = true := by
    rcases hdis with h | h <;> simp [h]
  have hinc : jsIncludes (jsToLower "please analyze my week") "analyze" = true := by
    decide
  have key : ∀ (tasks : List Task) (fetch : FetchOutcome),
      getAssistantResponse cfg "please analyze my week" tasks fetch =
        (analysisFallbackText, false) := by
    intro tasks fetch
    unfold getAssistantResponse sendRequest
    rw [hcond]
    simp only [if_true]
    unfold getFallbackResponse assistantMessages
    simp [List.find?, hinc]
  exact ⟨key tasks1 fetch1, key tasks2 fetch2⟩

/-- C9 witness: two concrete disabled-gateway calls with different task
lists and transport outcomes both yield the canned paragraph without a
network attempt. -/
theorem assistant_analyze_fallback_deterministic_witness :
    (c9Cfg.apiEnabled = false ∨ c9Cfg.apiKey = "")
    ∧ getAssistantResponse c9Cfg "please analyze my week" []
        FetchOutcome.status401 = (analysisFallbackText, false)
    ∧ getAssistantResponse c9Cfg "please analyze my week" [baseTask]
        (FetchOutcome.ok "remote text") = (analysisFallbackText, false) :=
  ⟨Or.inl rfl,
   (assistant_analyze_fallback_deterministic c9Cfg (Or.inl rfl) [] [baseTask]
      FetchOutcome.status401 (FetchOutcome.ok "remote text")).1,
   (assistant_analyze_fallback_deterministic c9Cfg (Or.inl rfl) [] [baseTask]
      FetchOutcome.status401 (FetchOutcome.ok "remote text")).2⟩

/-! ## C4 — decomposition fallback behavior -/

/-- Substring occurrence is preserved under appending on the right. -/
theorem hasSub_append_of_hasSub (s1 s2 pat : List Char)
    (h : hasSub s1 pat = true) : hasSub (s1 ++ s2) pat = true := by
  induction s1 with
  | nil =>
    simp only [hasSub] at h
    have hp : pat = [] := by simpa using h
    subst hp
    cases s2 <;> simp [hasSub]
  | cons c cs ih =>
    rw [List.cons_append]
    simp only [hasSub] at h ⊢
    rw [Bool.or_eq_true] at h ⊢
    rcases h with h | h
    · left
      have htake := congrArg List.length (eq_of_beq h)
      rw [List.length_take] at htake
      have hlen : pat.length ≤ (c :: cs).length := min_eq_left_iff.mp htake
      rw [show (c :: (cs ++ s2)) = (c :: cs) ++ s2 from by simp,
        List.take_append_of_le_length hlen]
      exact h
    · right
      exact ih h

/-- C4 (counterexample): with an enabled gateway, a transport success whose
body is the valid JSON `42` (parsed, but not an array) makes `decomposeTask`
return the **empty list** — not the fixed 5-item fallback — and a transport
throw yields the gateway's keyword fallback, a **6-item** list distinct from
the 5-item one.  Both outcomes contradict the claim. -/
theorem decompose_nonarray_yields_empty :
    decomposeTask c4Cfg "Write essay" "" (FetchOutcome.ok "42") = []
    ∧ jsonParse (cleanResponse "42") = some (Json.jnum 42)
    ∧ decomposeTask c4Cfg "Write essay" "" (FetchOutcome.throws "network down") =
        fallbackDecomposeItems.map Json.jstr
    ∧ fallbackDecomposeItems.length = 6 ∧ fallbackSubtasks.length = 5 :=
  ⟨rfl, rfl, rfl, rfl, rfl⟩

/-- C4 (amended): `decomposeTask` never throws; when JSON parsing of the
cleaned response fails it returns the fixed 5-item fallback list; when
parsing succeeds with a non-array it returns the empty list; and when the
transport throws, `sendRequest` substitutes the keyword-matched fallback —
for a decomposition prompt mentioning neither "analyze" nor "schedule" this
is the JSON-encoded 6-item list, which parses and is returned. -/
theorem decompose_fallback_behavior (cfg : AIConfig) (title desc m : String)
    (he : cfg.apiEnabled = true) (hk : cfg.apiKey ≠ "")
    (hA : jsIncludes (jsToLower (decomposeUserContent title desc)) "analyze" = false)
    (hS : jsIncludes (jsToLower (decomposeUserContent title desc)) "schedule" = false) :
    decomposeTask cfg title desc (FetchOutcome.throws m) =
      fallbackDecomposeItems.map Json.jstr
    ∧ (∀ resp, jsonParse (cleanResponse resp) = none →
        decomposeTask cfg title desc (FetchOutcome.ok resp) =
          fallbackSubtasks.map Json.jstr)
    ∧ (∀ resp j, jsonParse (cleanResponse resp) = some j →
        (∀ xs, j ≠ Json.jarr xs) →
        decomposeTask cfg title desc (FetchOutcome.ok resp) = []) := by
  have hene : (!cfg.apiEnabled || cfg.apiKey == "") = false := by
    simp [he, hk]
  have hbreak : jsIncludes (jsToLower (decomposeUserContent title desc))
      "break down" = true := by
    unfold jsIncludes jsToLower decomposeUserContent
    simp only [String.data_append, List.map_append, List.append_assoc]
    exact hasSub_append_of_hasSub _ _ _ (by decide)
  have hfb : getFallbackResponse (decomposeMessages title desc) =
      jsonStringifyStrings fallbackDecomposeItems := by
    unfold getFallbackResponse decomposeMessages
    simp [List.find?, hA, hS, hbreak]
  have hsendT : sendRequest cfg (decomposeMessages title desc)
      (FetchOutcome.throws m) =
      (getFallbackResponse (decomposeMessages title desc), true) := by
    unfold sendRequest
    simp [hene]
  have hsendOk : ∀ resp, sendRequest cfg (decomposeMessages title desc)
      (FetchOutcome.ok resp) = (resp, true) := by
    intro resp
    unfold sendRequest
    simp [hene]
  have hparse : jsonParse (cleanResponse (jsonStringifyStrings fallbackDecomposeItems)) =
      some (Json.jarr (fallbackDecomposeItems.map Json.jstr)) := rfl
  refine ⟨?_, ?_, ?_⟩
  · unfold decomposeTask
    rw [hsendT]
    simp only [hfb]
    rw [hparse]
  · intro resp hnone
    unfold decomposeTask
    rw [hsendOk resp]
    simp only
    rw [hnone]
  · intro resp j hsome hnotarr
    unfold decomposeTask
    rw [hsendOk resp]
    simp only
    rw [hsome]
    cases j with
    | jarr xs => exact absurd rfl (hnotarr xs)
    | jnull => rfl
    | jbool b => rfl
    | jnum n => rfl
    | jstr s => rfl
    | jobj fs => rfl

/-- C4 witness: the amended behavior at a concrete enabled configuration and
prompt. -/
theorem decompose_fallback_behavior_witness :
    c4Cfg.apiEnabled = true ∧ c4Cfg.apiKey ≠ ""
    ∧ jsIncludes (jsToLower (decomposeUserContent "Write essay" "")) "analyze" = false
    ∧ jsIncludes (jsToLower (decomposeUserContent "Write essay" "")) "schedule" = false
    ∧ decomposeTask c4Cfg "Write essay" "" (FetchOutcome.throws "boom") =
        fallbackDecomposeItems.map Json.jstr :=
  ⟨rfl, by decide, by decide, by decide,
   (decompose_fallback_behavior c4Cfg "Write essay" "" "boom" rfl (by decide)
      (by decide) (by decide)).1⟩

/-! ## C7 — the overdue high-priority recommendation -/

/-- C7: over a non-empty collection, one recomputation pass emits exactly
one prioritization-category recommendation iff some task is overdue, not
completed and high-priority; that recommendation's `taskIds` are exactly the
ids of those tasks and its message states their count; and a pass appends
its new recommendations to the previous list. -/
theorem overdue_prioritization_recommendation (tasks : List Task)
    (env : EngineEnv) (hne : tasks ≠ []) :
    ((analyzeTasksAndGenerateRecommendations tasks env).1.filter
        (fun r => r.rtype == RecType.prioritization)) =
      (if (overdueHighPriorityTasks tasks env.now).length > 0 then
        [{ id := "overdue-" ++ toString env.passTime
           rtype := RecType.prioritization
           message := "You have " ++ toString (overdueHighPriorityTasks tasks env.now).length ++
             " overdue high-priority tasks that need immediate attention."
           actionText := "Focus on these first"
           applied := false
           taskIds := (overdueHighPriorityTasks tasks env.now).map (fun t => t.id) }]
       else [])
    ∧ (∀ prev, recomputePass prev tasks env =
        prev ++ (analyzeTasksAndGenerateRecommendations tasks env).1) := by
  refine ⟨?_, fun prev => rfl⟩
  have hb1 : (RecType.pattern == RecType.prioritization) = false := by decide
  have hb2 : (RecType.scheduling == RecType.prioritization) = false := by decide
  have hb3 : (RecType.prioritization == RecType.prioritization) = true := by decide
  unfold analyzeTasksAndGenerateRecommendations
  by_cases hai : tasks.length ≥ 3 <;>
    by_cases hov : (overdueHighPriorityTasks tasks env.now).length > 0 <;>
      by_cases hbatch : (findSimilarTaskClusters tasks).length > 2 <;>
        simp [hai, hov, hbatch, List.filter_append, List.filter_cons,
          List.filter_nil, hb1, hb2, hb3, apply_ite, ite_self]

/-- C7 witness: three tasks, one of them overdue high-priority — the pass
emits exactly the prioritization recommendation with count 1 and that
task's id. -/
theorem overdue_prioritization_recommendation_witness :
    c7Tasks ≠ []
    ∧ (overdueHighPriorityTasks c7Tasks c7Env.now).length = 1
    ∧ (overdueHighPriorityTasks c7Tasks c7Env.now).map (fun t => t.id) = ["t-over"]
    ∧ ((analyzeTasksAndGenerateRecommendations c7Tasks c7Env).1.filter
        (fun r => r.rtype == RecType.prioritization)) = [c7Rec] :=
  ⟨by decide, by decide, by decide,
   ((overdue_prioritization_recommendation c7Tasks c7Env (by decide)).1).trans
     (by decide)⟩

/-! ## C10 — the schedule generator and the scheduling recommendation -/

/-- C10: the schedule generator always returns exactly 5 slots — starting at
9:00, 11:00, 13:00, 15:00 and 17:00 of the current day with minutes, seconds
and milliseconds zeroed, each ending at half past the next hour (1.5 h after
its start), with productivity between 5 and 9 inclusive — so a recomputation
pass over a non-empty collection unconditionally appends exactly one
scheduling-category recommendation. -/
theorem schedule_five_slots_and_recommendation (tasks : List Task)
    (env : EngineEnv) (hne : tasks ≠ [])
    (hrand : ∀ i, 0 ≤ env.rand i ∧ env.rand i < 1) :
    (generateOptimalSchedule tasks env.wallNow env.rand).length = 5
    ∧ ((generateOptimalSchedule tasks env.wallNow env.rand).map
        (fun s => s.startTime.hour)) = [9, 11, 13, 15, 17]
    ∧ (∀ slot ∈ generateOptimalSchedule tasks env.wallNow env.rand,
        slot.startTime.day = env.wallNow.day ∧ slot.startTime.minute = 0
        ∧ slot.startTime.second = 0 ∧ slot.startTime.millis = 0
        ∧ slot.endTime.day = env.wallNow.day
        ∧ slot.endTime.hour = slot.startTime.hour + 1
        ∧ slot.endTime.minute = 30 ∧ slot.endTime.second = 0
        ∧ slot.endTime.millis = 0
        ∧ 5 ≤ slot.productivity ∧ slot.productivity ≤ 9)
    ∧ ((analyzeTasksAndGenerateRecommendations tasks env).1.filter
        (fun r => r.rtype == RecType.scheduling)).length = 1 := by
  have hslot : ∀ i : Nat, 0 ≤ ⌊env.rand i * 5⌋ ∧ ⌊env.rand i * 5⌋ ≤ 4 := by
    intro i
    constructor
    · exact Int.floor_nonneg.mpr (mul_nonneg (hrand i).1 (by norm_num))
    · have h5 : env.rand i * 5 < 5 := by
        have := mul_lt_mul_of_pos_right (hrand i).2 (show (0:ℚ) < 5 by norm_num)
        simpa using this
      have : ⌊env.rand i * 5⌋ < 5 := Int.floor_lt.mpr (by exact_mod_cast h5)
      omega
  have hlen : (generateOptimalSchedule tasks env.wallNow env.rand).length = 5 := by
    simp [generateOptimalSchedule]
  refine ⟨hlen, ?_, ?_, ?_⟩
  · unfold generateOptimalSchedule
    rw [show List.range 5 = [0, 1, 2, 3, 4] from rfl]
    simp [setHours]
  · intro slot hm
    obtain ⟨i, hi, rfl⟩ := List.mem_map.mp hm
    obtain ⟨h0, h4⟩ := hslot i
    refine ⟨rfl, rfl, rfl, rfl, rfl, rfl, rfl, rfl, rfl, ?_, ?_⟩ <;>
      · show _ ≤ _
        dsimp only
        omega
  · have hpos : (generateOptimalSchedule tasks env.wallNow env.rand).length > 0 := by
      rw [hlen]; norm_num
    have hb1 : (RecType.pattern == RecType.scheduling) = false := by decide
    have hb2 : (RecType.prioritization == RecType.scheduling) = false := by decide
    have hb3 : (RecType.scheduling == RecType.scheduling) = true := by decide
    unfold analyzeTasksAndGenerateRecommendations
    by_cases hai : tasks.length ≥ 3 <;>
      by_cases hov : (overdueHighPriorityTasks tasks env.now).length > 0 <;>
        by_cases hbatch : (findSimilarTaskClusters tasks).length > 2 <;>
          simp [hai, hov, hbatch, hpos, List.filter_append, List.filter_cons,
            List.filter_nil, hb1, hb2, hb3, apply_ite, ite_self]

/-- C10 witness: the schedule generator and pass at a concrete environment
(`Math.random()` constantly 1/2, three tasks). -/
theorem schedule_five_slots_and_recommendation_witness :
    c7Tasks ≠ []
    ∧ (∀ i : Nat, 0 ≤ c7Env.rand i ∧ c7Env.rand i < 1)
    ∧ (generateOptimalSchedule c7Tasks c7Env.wallNow c7Env.rand).length = 5
    ∧ ((analyzeTasksAndGenerateRecommendations c7Tasks c7Env).1.filter
        (fun r => r.rtype == RecType.scheduling)).length = 1 :=
  have hr : ∀ i : Nat, 0 ≤ c7Env.rand i ∧ c7Env.rand i < 1 := by
    intro i
    exact ⟨by norm_num [c7Env], by norm_num [c7Env]⟩
  ⟨by decide, hr,
   (schedule_five_slots_and_recommendation c7Tasks c7Env (by decide) hr).1,
   (schedule_five_slots_and_recommendation c7Tasks c7Env (by decide) hr).2.2.2⟩

end TaskApp
